import Mathlib

/-!
Shallow embedding of the nanocalc Rayleigh-scattering core
(src/core/types.rs, src/core/constants.rs, src/core/traits.rs,
src/physics/optical/mie.rs).

Rust `f64` values are modelled as real numbers: every arithmetic
expression of the source is translated literally, with `Complex64`
becoming `ℂ`.  A separate layer at the end of the definitions models
`f64` together with its NaN value, for the claims that are about NaN
propagation.
-/

noncomputable section

namespace Nanocalc

/-! ## Constants (src/core/constants.rs) -/

namespace constants

/-- Speed of light in vacuum in m/s. -/
def C : ℝ := 2.99792458e8

/-- Speed of light in nm/s. -/
def C_NM_S : ℝ := 2.99792458e17

/-- Planck constant in J·s. -/
def H : ℝ := 6.62607015e-34

namespace conversions

/-- h·c product in eV·nm. -/
def HC_EV_NM : ℝ := 1239.84193

/-- Nanometer to meter. -/
def NM_TO_M : ℝ := 1e-9

end conversions

end constants

/-! ## Unit newtypes (src/core/types.rs, `units` module) -/

namespace units

/-- Wavelength in nanometers. -/
structure Wavelength where
  val : ℝ

/-- Temperature in Kelvin. -/
structure Kelvin where
  val : ℝ

/-- Energy in electron volts. -/
structure ElectronVolt where
  val : ℝ

/-- `Wavelength::to_energy_ev`: uses the local constant
`HC = 1239.84193` eV·nm exactly as the source does. -/
def Wavelength.to_energy_ev (w : Wavelength) : ElectronVolt :=
  ElectronVolt.mk (1239.84193 / w.val)

/-- `Wavelength::to_frequency_hz`: uses the local constant
`C = 2.99792458e17` nm/s exactly as the source does. -/
def Wavelength.to_frequency_hz (w : Wavelength) : ℝ :=
  2.99792458e17 / w.val

/-- `Kelvin::to_celsius`. -/
def Kelvin.to_celsius (t : Kelvin) : ℝ :=
  t.val - 273.15

end units

/-! ## Refractive index and error taxonomy (src/core/types.rs) -/

/-- Complex refractive index n + ik. -/
structure RefractiveIndex where
  real : ℝ
  imaginary : ℝ
  deriving DecidableEq

/-- `RefractiveIndex::to_complex`. -/
def RefractiveIndex.to_complex (r : RefractiveIndex) : ℂ :=
  ⟨r.real, r.imaginary⟩

/-- `ValidationError` (src/core/types.rs). -/
inductive ValidationError where
  | OutOfRange (value min max : ℝ)
  | InvalidParameter (reason : String)
  | PhysicsViolation (reason : String)

/-- `CalculationError` (src/core/types.rs); `Validation` is the
`#[from] ValidationError` pass-through variant. -/
inductive CalculationError where
  | ConvergenceFailed (iterations : ℕ)
  | NumericalInstability (reason : String)
  | InvalidInput (reason : String)
  | ModelNotApplicable (reason : String)
  | Validation (e : ValidationError)

/-! ## Optical result (src/core/traits.rs) -/

/-- `OpticalMetadata`. -/
structure OpticalMetadata where
  num_terms : Option ℕ
  converged : Bool
  size_parameter : ℝ
  notes : List String

/-- `OpticalResult`. -/
structure OpticalResult where
  wavelength : ℝ
  q_sca : ℝ
  q_abs : ℝ
  q_ext : ℝ
  c_sca : ℝ
  c_abs : ℝ
  c_ext : ℝ
  metadata : OpticalMetadata

/-- `OpticalResult::check_conservation`. -/
def OpticalResult.check_conservation (r : OpticalResult) : ℝ :=
  |r.q_ext - (r.q_sca + r.q_abs)|

/-! ## Mie model (src/physics/optical/mie.rs) -/

/-- `MieModel`. -/
structure MieModel where
  radius : ℝ
  wavelength : ℝ
  n_particle : RefractiveIndex
  n_medium : ℝ

/-- `MieModel::size_parameter`: x = 2πr/λ. -/
def MieModel.size_parameter (self : MieModel) : ℝ :=
  2 * Real.pi * self.radius / self.wavelength

/-- `MieModel::rayleigh_approximation`, translated let-by-let. -/
def MieModel.rayleigh_approximation (self : MieModel) : OpticalResult :=
  let x := self.size_parameter
  let m : ℂ := self.n_particle.to_complex / (self.n_medium : ℂ)
  let m2_minus_1 := m * m - 1
  let m2_plus_2 := m * m + 2
  let factor := m2_minus_1 / m2_plus_2
  let q_sca := (8 / 3) * x ^ 4 * Complex.normSq factor
  let q_abs := 4 * x * (m2_minus_1 / m2_plus_2).im
  let q_ext := q_sca + q_abs
  let geometric_area := Real.pi * self.radius ^ 2
  let c_sca := q_sca * geometric_area
  let c_abs := q_abs * geometric_area
  let c_ext := q_ext * geometric_area
  { wavelength := self.wavelength
    q_sca := q_sca
    q_abs := q_abs
    q_ext := q_ext
    c_sca := c_sca
    c_abs := c_abs
    c_ext := c_ext
    metadata :=
      { num_terms := some 1
        converged := true
        size_parameter := x
        notes := ["Rayleigh approximation"] } }

/-- `MieModel::validate` (PhysicsModel impl). -/
def MieModel.validate (self : MieModel) : Except ValidationError Unit :=
  if self.radius ≤ 0 then
    .error (.InvalidParameter "Radius must be positive")
  else if self.wavelength ≤ 0 then
    .error (.InvalidParameter "Wavelength must be positive")
  else if self.n_medium ≤ 0 then
    .error (.InvalidParameter "Medium refractive index must be positive")
  else
    .ok ()

/-- The advisory string built by `MieModel::warnings` when x > 1;
`fmt` abstracts the `{:.2}` numeric rendering of x. -/
def mie_size_warning (fmt : ℝ → String) (x : ℝ) : String :=
  "Size parameter x=" ++ fmt x ++
    " > 1. Rayleigh approximation may be inaccurate. Full Mie theory recommended."

/-- `MieModel::warnings` (PhysicsModel impl); `fmt` abstracts the
`{:.2}` float formatting, which the returned text interpolates. -/
def MieModel.warnings (fmt : ℝ → String) (self : MieModel) : List String :=
  let x := self.size_parameter
  if x > 1 then [mie_size_warning fmt x] else []

/-- `MieModel::calculate` (OpticalModel impl): `self.validate()?`
converts the validation error through the `#[from]` conversion. -/
def MieModel.calculate (self : MieModel) : Except CalculationError OpticalResult :=
  match self.validate with
  | .error e => .error (.Validation e)
  | .ok () => .ok self.rayleigh_approximation

/-- `MieModel::calculate_spectrum` (OpticalModel impl): clone the model
with each wavelength substituted, calculate, and collect with the
first error short-circuiting (Rust `Iterator::collect` on `Result`). -/
def MieModel.calculate_spectrum (self : MieModel) :
    List ℝ → Except CalculationError (List OpticalResult)
  | [] => .ok []
  | wl :: rest =>
    match ({ self with wavelength := wl } : MieModel).calculate with
    | .error e => .error e
    | .ok r =>
      match self.calculate_spectrum rest with
      | .error e => .error e
      | .ok rs => .ok (r :: rs)

/-!
## NaN-aware float layer

For the claims about NaN inputs, `f64` is modelled as a real number or
NaN.  Rounding, overflow and signed zero are not modelled; the IEEE-754
facts the model does capture are that NaN propagates through every
arithmetic operation (including `NaN * 0`), that `0/0` is NaN, and that
every ordered comparison involving NaN is false.  Division of a nonzero
value by zero is mapped to NaN rather than ±∞; in the computations below
a zero divisor only ever occurs together with a zero dividend (a complex
division by a complex zero), where IEEE also yields NaN.
-/

/-- An `f64` value: NaN or a real number. -/
inductive F64 where
  | nan : F64
  | val : ℝ → F64

namespace F64

/-- IEEE addition: NaN propagates. -/
def add : F64 → F64 → F64
  | val a, val b => val (a + b)
  | _, _ => nan

/-- IEEE subtraction: NaN propagates. -/
def sub : F64 → F64 → F64
  | val a, val b => val (a - b)
  | _, _ => nan

/-- IEEE multiplication: NaN propagates (also `NaN * 0 = NaN`). -/
def mul : F64 → F64 → F64
  | val a, val b => val (a * b)
  | _, _ => nan

/-- IEEE division: NaN propagates, and a zero divisor yields NaN
(faithful to IEEE only when the dividend is also zero, the only case
arising below). -/
def div : F64 → F64 → F64
  | val a, val b => if b = 0 then nan else val (a / b)
  | _, _ => nan

instance : Add F64 := ⟨add⟩

instance : Sub F64 := ⟨sub⟩

instance : Mul F64 := ⟨mul⟩

instance : Div F64 := ⟨div⟩

/-- `f64::powi`: NaN propagates. -/
def powi : F64 → ℕ → F64
  | val a, n => val (a ^ n)
  | nan, _ => nan

/-- Whether the value is NaN. -/
def isNaN : F64 → Prop
  | nan => True
  | val _ => False

instance : ∀ a : F64, Decidable a.isNaN := fun a =>
  match a with
  | nan => .isTrue trivial
  | val _ => .isFalse not_false

/-- The IEEE comparison `a <= b`: false whenever either side is NaN. -/
def fle : F64 → F64 → Prop
  | val a, val b => a ≤ b
  | _, _ => False

instance : ∀ a b : F64, Decidable (fle a b) := fun a b =>
  match a, b with
  | val x, val y => inferInstanceAs (Decidable (x ≤ y))
  | nan, val _ => .isFalse not_false
  | nan, nan => .isFalse not_false
  | val _, nan => .isFalse not_false

/-- NaN or a (strictly) positive real: the parameter values whose
`<= 0.0` validation check is false. -/
def nanOrPos : F64 → Prop
  | nan => True
  | val x => 0 < x

end F64

/-- `num_complex::Complex64` over the NaN-aware floats. -/
structure Complex64 where
  re : F64
  im : F64

namespace Complex64

/-- `num_complex` complex multiplication, componentwise on `f64`. -/
def mul (a b : Complex64) : Complex64 :=
  ⟨a.re * b.re - a.im * b.im, a.re * b.im + a.im * b.re⟩

/-- `num_complex` complex subtraction. -/
def sub (a b : Complex64) : Complex64 :=
  ⟨a.re - b.re, a.im - b.im⟩

/-- `num_complex` complex addition. -/
def add (a b : Complex64) : Complex64 :=
  ⟨a.re + b.re, a.im + b.im⟩

/-- `num_complex` `Div<f64>`: divide both components by the scalar. -/
def divScalar (a : Complex64) (s : F64) : Complex64 :=
  ⟨a.re / s, a.im / s⟩

/-- `num_complex` `norm_sqr`. -/
def norm_sqr (a : Complex64) : F64 :=
  a.re * a.re + a.im * a.im

/-- `num_complex` complex division: numerators over `norm_sqr`. -/
def div (a b : Complex64) : Complex64 :=
  let norm_sqr := b.norm_sqr
  ⟨(a.re * b.re + a.im * b.im) / norm_sqr,
   (a.im * b.re - a.re * b.im) / norm_sqr⟩

/-- `Complex64::new`. -/
def new (re im : F64) : Complex64 := ⟨re, im⟩

end Complex64

/-- `RefractiveIndex` over the NaN-aware floats. -/
structure RefractiveIndexF where
  real : F64
  imaginary : F64

/-- `RefractiveIndex::to_complex` over the NaN-aware floats. -/
def RefractiveIndexF.to_complex (r : RefractiveIndexF) : Complex64 :=
  ⟨r.real, r.imaginary⟩

/-- `MieModel` over the NaN-aware floats. -/
structure MieModelF where
  radius : F64
  wavelength : F64
  n_particle : RefractiveIndexF
  n_medium : F64

/-- `OpticalResult` over the NaN-aware floats (metadata elided: the
NaN claims are about the six numeric efficiency/cross-section fields). -/
structure OpticalResultF where
  wavelength : F64
  q_sca : F64
  q_abs : F64
  q_ext : F64
  c_sca : F64
  c_abs : F64
  c_ext : F64

namespace MieModelF

/-- `MieModel::size_parameter` over the NaN-aware floats. -/
def size_parameter (self : MieModelF) : F64 :=
  F64.val 2 * F64.val Real.pi * self.radius / self.wavelength

/-- `MieModel::rayleigh_approximation` over the NaN-aware floats,
translated let-by-let. -/
def rayleigh_approximation (self : MieModelF) : OpticalResultF :=
  let x := self.size_parameter
  let m := self.n_particle.to_complex.divScalar self.n_medium
  let m2_minus_1 := (m.mul m).sub (Complex64.new (F64.val 1) (F64.val 0))
  let m2_plus_2 := (m.mul m).add (Complex64.new (F64.val 2) (F64.val 0))
  let factor := m2_minus_1.div m2_plus_2
  let q_sca := (F64.val 8 / F64.val 3) * x.powi 4 * factor.norm_sqr
  let q_abs := F64.val 4 * x * (m2_minus_1.div m2_plus_2).im
  let q_ext := q_sca + q_abs
  let geometric_area := F64.val Real.pi * self.radius.powi 2
  let c_sca := q_sca * geometric_area
  let c_abs := q_abs * geometric_area
  let c_ext := q_ext * geometric_area
  { wavelength := self.wavelength
    q_sca := q_sca
    q_abs := q_abs
    q_ext := q_ext
    c_sca := c_sca
    c_abs := c_abs
    c_ext := c_ext }

/-- `MieModel::validate` over the NaN-aware floats: each check is an
IEEE `<= 0.0` comparison, false on NaN. -/
def validate (self : MieModelF) : Except ValidationError Unit :=
  if self.radius.fle (F64.val 0) then
    .error (.InvalidParameter "Radius must be positive")
  else if self.wavelength.fle (F64.val 0) then
    .error (.InvalidParameter "Wavelength must be positive")
  else if self.n_medium.fle (F64.val 0) then
    .error (.InvalidParameter "Medium refractive index must be positive")
  else
    .ok ()

/-- `MieModel::calculate` over the NaN-aware floats. -/
def calculate (self : MieModelF) : Except CalculationError OpticalResultF :=
  match self.validate with
  | .error e => .error (.Validation e)
  | .ok () => .ok self.rayleigh_approximation

end MieModelF

/-!
## Spec-side reference definitions

These follow the wording of the specification (§4.2, §8), to be
compared against the source-side definitions above.
-/

/-- Spec: size parameter `x = 2π·radius/wavelength`. -/
def spec_size_parameter (radius wavelength : ℝ) : ℝ :=
  2 * Real.pi * radius / wavelength

/-- Spec: relative complex index `m = n_particle / n_medium`. -/
def spec_relative_index (n_particle : ℂ) (n_medium : ℝ) : ℂ :=
  n_particle / (n_medium : ℂ)

/-- Spec: polarizability factor `F = (m² − 1)/(m² + 2)`. -/
def spec_polarizability_factor (m : ℂ) : ℂ :=
  (m ^ 2 - 1) / (m ^ 2 + 2)

/-- Spec: `q_sca = (8/3)·x⁴·|F|²`. -/
def spec_q_sca (x : ℝ) (F : ℂ) : ℝ :=
  (8 / 3) * x ^ 4 * Complex.abs F ^ 2

/-- Spec: `q_abs = 4·x·Im(F)`. -/
def spec_q_abs (x : ℝ) (F : ℂ) : ℝ :=
  4 * x * F.im

/-- The documented Rayleigh reference behaviour of `calculate` on a
model (spec §4.2): the result is the Rayleigh approximation, whose
efficiencies follow the documented formulas and whose cross-sections
are the efficiencies times the geometric area `π·radius²`. -/
def RayleighSpec (m : MieModel) : Prop :=
  m.calculate = .ok m.rayleigh_approximation ∧
  m.rayleigh_approximation.q_sca =
    spec_q_sca (spec_size_parameter m.radius m.wavelength)
      (spec_polarizability_factor
        (spec_relative_index m.n_particle.to_complex m.n_medium)) ∧
  m.rayleigh_approximation.q_abs =
    spec_q_abs (spec_size_parameter m.radius m.wavelength)
      (spec_polarizability_factor
        (spec_relative_index m.n_particle.to_complex m.n_medium)) ∧
  m.rayleigh_approximation.q_ext =
    m.rayleigh_approximation.q_sca + m.rayleigh_approximation.q_abs ∧
  m.rayleigh_approximation.c_sca =
    m.rayleigh_approximation.q_sca * (Real.pi * m.radius ^ 2) ∧
  m.rayleigh_approximation.c_abs =
    m.rayleigh_approximation.q_abs * (Real.pi * m.radius ^ 2) ∧
  m.rayleigh_approximation.c_ext =
    m.rayleigh_approximation.q_ext * (Real.pi * m.radius ^ 2)

/-- `validate` outcomes that are an `InvalidParameter` error. -/
def isInvalidParameterError : Except ValidationError Unit → Prop
  | .error (.InvalidParameter _) => True
  | _ => False

/-!
## Helper lemmas
-/

theorem MieModel.calculate_ok_iff (m : MieModel) (r : OpticalResult) :
    m.calculate = .ok r ↔ m.validate = .ok () ∧ r = m.rayleigh_approximation := by
  unfold MieModel.calculate
  cases h : m.validate with
  | error e => simp
  | ok u => cases u; simp [eq_comm]

theorem MieModel.validate_ok_iff (m : MieModel) :
    m.validate = .ok () ↔ ¬(m.radius ≤ 0 ∨ m.wavelength ≤ 0 ∨ m.n_medium ≤ 0) := by
  unfold MieModel.validate
  by_cases h1 : m.radius ≤ 0 <;> by_cases h2 : m.wavelength ≤ 0 <;>
    by_cases h3 : m.n_medium ≤ 0 <;> simp [h1, h2, h3]

theorem MieModel.calculate_of_valid (m : MieModel) (h1 : 0 < m.radius)
    (h2 : 0 < m.wavelength) (h3 : 0 < m.n_medium) :
    m.calculate = .ok m.rayleigh_approximation := by
  rw [MieModel.calculate_ok_iff]
  exact ⟨(m.validate_ok_iff).mpr (by push_neg; exact ⟨h1, h2, h3⟩), rfl⟩

theorem MieModel.calculate_wavelength (m : MieModel) (r : OpticalResult)
    (h : m.calculate = .ok r) : r.wavelength = m.wavelength := by
  obtain ⟨-, rfl⟩ := (m.calculate_ok_iff r).mp h
  simp [MieModel.rayleigh_approximation]

theorem MieModel.spectrum_ok_map (m : MieModel) :
    ∀ (wls : List ℝ) (rs : List OpticalResult),
      m.calculate_spectrum wls = .ok rs →
        rs.map OpticalResult.wavelength = wls := by
  intro wls
  induction wls with
  | nil =>
    intro rs h
    simp only [MieModel.calculate_spectrum] at h
    cases h
    rfl
  | cons wl rest ih =>
    intro rs h
    simp only [MieModel.calculate_spectrum] at h
    cases hc : ({ m with wavelength := wl } : MieModel).calculate with
    | error e => rw [hc] at h; cases h
    | ok r =>
      rw [hc] at h
      cases hs : m.calculate_spectrum rest with
      | error e => rw [hs] at h; cases h
      | ok rs2 =>
        rw [hs] at h
        cases h
        have hwl : r.wavelength = wl :=
          ({ m with wavelength := wl } : MieModel).calculate_wavelength r hc
        simp [List.map_cons, hwl, ih rs2 hs]

theorem MieModel.spectrum_first_error (m : MieModel) :
    ∀ (pre : List ℝ) (wl : ℝ) (post : List ℝ) (e : CalculationError),
      (∀ w ∈ pre, ∃ r, ({ m with wavelength := w } : MieModel).calculate = .ok r) →
      ({ m with wavelength := wl } : MieModel).calculate = .error e →
      m.calculate_spectrum (pre ++ wl :: post) = .error e := by
  intro pre
  induction pre with
  | nil =>
    intro wl post e _ he
    simp only [List.nil_append, MieModel.calculate_spectrum]
    rw [he]
  | cons w pre2 ih =>
    intro wl post e hok he
    obtain ⟨r, hr⟩ := hok w (List.mem_cons_self w pre2)
    simp only [List.cons_append, MieModel.calculate_spectrum]
    rw [hr, List.append_eq_has_append,
      ih wl post e (fun w2 hw2 => hok w2 (List.mem_cons_of_mem _ hw2)) he]

theorem MieModel.spectrum_all_ok (m : MieModel) (hr : 0 < m.radius)
    (hm : 0 < m.n_medium) :
    ∀ wls : List ℝ, (∀ wl ∈ wls, 0 < wl) →
      m.calculate_spectrum wls =
        .ok (wls.map fun wl =>
          ({ m with wavelength := wl } : MieModel).rayleigh_approximation) := by
  intro wls
  induction wls with
  | nil => intro _; simp [MieModel.calculate_spectrum]
  | cons wl rest ih =>
    intro hpos
    have hc : ({ m with wavelength := wl } : MieModel).calculate =
        .ok ({ m with wavelength := wl } : MieModel).rayleigh_approximation :=
      MieModel.calculate_of_valid _ hr (hpos wl (List.mem_cons_self wl rest)) hm
    simp only [MieModel.calculate_spectrum, List.map_cons]
    rw [hc, ih (fun w hw => hpos w (List.mem_cons_of_mem _ hw))]

@[simp]
theorem F64.nan_add (a : F64) : F64.nan + a = F64.nan := by cases a <;> rfl

@[simp]
theorem F64.add_nan (a : F64) : a + F64.nan = F64.nan := by cases a <;> rfl

@[simp]
theorem F64.nan_sub (a : F64) : F64.nan - a = F64.nan := by cases a <;> rfl

@[simp]
theorem F64.sub_nan (a : F64) : a - F64.nan = F64.nan := by cases a <;> rfl

@[simp]
theorem F64.nan_mul (a : F64) : F64.nan * a = F64.nan := by cases a <;> rfl

@[simp]
theorem F64.mul_nan (a : F64) : a * F64.nan = F64.nan := by cases a <;> rfl

@[simp]
theorem F64.nan_div (a : F64) : F64.nan / a = F64.nan := by cases a <;> rfl

@[simp]
theorem F64.div_nan (a : F64) : a / F64.nan = F64.nan := by cases a <;> rfl

@[simp]
theorem F64.val_mul (a b : ℝ) : F64.val a * F64.val b = F64.val (a * b) := rfl

@[simp]
theorem F64.val_add (a b : ℝ) : F64.val a + F64.val b = F64.val (a + b) := rfl

@[simp]
theorem F64.powi_nan (n : ℕ) : F64.powi F64.nan n = F64.nan := rfl

@[simp]
theorem F64.powi_val (a : ℝ) (n : ℕ) : F64.powi (F64.val a) n = F64.val (a ^ n) := rfl

@[simp]
theorem F64.isNaN_nan : F64.nan.isNaN := trivial

theorem F64.not_fle_zero {a : F64} (h : a.nanOrPos) : ¬a.fle (F64.val 0) := by
  cases a with
  | nan => simp [F64.fle]
  | val x =>
    simp only [F64.nanOrPos] at h
    simp only [F64.fle]
    linarith

/-!
## Claim theorems
-/

/-- C1: for every model whose parameters pass validation, `calculate`
returns `Ok` of the result computed by the documented Rayleigh
reference definition (size parameter, relative index, polarizability
factor, efficiencies, cross-sections); in particular for radius = 50
and wavelength = 500 the size parameter equals `2π·50/500`. -/
theorem mie_calculate_matches_documented_rayleigh (m : MieModel)
    (h : m.validate = .ok ()) :
    RayleighSpec m ∧
      ∀ np nm, (MieModel.mk 50 500 np nm).size_parameter = 2 * Real.pi * 50 / 500 := by
  constructor
  · refine ⟨?_, ?_, ?_, ?_, ?_, ?_, ?_⟩
    · unfold MieModel.calculate
      rw [h]
    · simp only [MieModel.rayleigh_approximation, MieModel.size_parameter,
        spec_q_sca, spec_size_parameter, spec_polarizability_factor,
        spec_relative_index, Complex.sq_abs, sq, Complex.mul_self_abs]
    · simp only [MieModel.rayleigh_approximation, MieModel.size_parameter,
        spec_q_abs, spec_size_parameter, spec_polarizability_factor,
        spec_relative_index, sq]
    · simp only [MieModel.rayleigh_approximation]
    · simp only [MieModel.rayleigh_approximation, sq]
    · simp only [MieModel.rayleigh_approximation, sq]
    · simp only [MieModel.rayleigh_approximation, sq]
  · intro np nm
    simp only [MieModel.size_parameter]

/-- Witness for C1 at radius 50, wavelength 500, n = 1.5 + 0i, medium 1. -/
theorem mie_calculate_matches_documented_rayleigh_witness :
    RayleighSpec (MieModel.mk 50 500 (RefractiveIndex.mk 1.5 0) 1) :=
  (mie_calculate_matches_documented_rayleigh
    (MieModel.mk 50 500 (RefractiveIndex.mk 1.5 0) 1)
    (by rw [MieModel.validate_ok_iff]; push_neg; norm_num)).1

/-- C2: every `OpticalResult` produced by a successful `calculate` call
has `q_ext = q_sca + q_abs` exactly, so `check_conservation` is exactly
zero, in particular below `1e-10`. -/
theorem mie_calculate_conservation (m : MieModel) (r : OpticalResult)
    (h : m.calculate = .ok r) :
    r.q_ext = r.q_sca + r.q_abs ∧
      r.check_conservation = 0 ∧ r.check_conservation < 1e-10 := by
  obtain ⟨-, rfl⟩ := (m.calculate_ok_iff r).mp h
  have hext : m.rayleigh_approximation.q_ext =
      m.rayleigh_approximation.q_sca + m.rayleigh_approximation.q_abs := by
    simp only [MieModel.rayleigh_approximation]
  have hzero : m.rayleigh_approximation.check_conservation = 0 := by
    rw [OpticalResult.check_conservation, hext]
    simp
  exact ⟨hext, hzero, by rw [hzero]; norm_num⟩

/-- Witness for C2 at radius 10, wavelength 500, n = 0.5 + 2.5i,
medium 1.33. -/
theorem mie_calculate_conservation_witness :
    (MieModel.mk 10 500 (RefractiveIndex.mk 0.5 2.5) 1.33).rayleigh_approximation.q_ext =
        (MieModel.mk 10 500 (RefractiveIndex.mk 0.5 2.5) 1.33).rayleigh_approximation.q_sca +
          (MieModel.mk 10 500 (RefractiveIndex.mk 0.5 2.5) 1.33).rayleigh_approximation.q_abs ∧
      (MieModel.mk 10 500 (RefractiveIndex.mk 0.5 2.5) 1.33).rayleigh_approximation.check_conservation = 0 ∧
      (MieModel.mk 10 500 (RefractiveIndex.mk 0.5 2.5) 1.33).rayleigh_approximation.check_conservation < 1e-10 :=
  mie_calculate_conservation (MieModel.mk 10 500 (RefractiveIndex.mk 0.5 2.5) 1.33)
    (MieModel.mk 10 500 (RefractiveIndex.mk 0.5 2.5) 1.33).rayleigh_approximation
    (by
      rw [MieModel.calculate_ok_iff]
      exact ⟨by rw [MieModel.validate_ok_iff]; push_neg; norm_num, rfl⟩)

/-- C4: `calculate_spectrum` evaluates each wavelength by substituting
it into a copy of the model and calling `calculate`; on success the
result list has the same length and order as the input, with the i-th
result's wavelength field equal to the i-th input; a failing point
aborts the whole call with the first failing point's error. -/
theorem mie_calculate_spectrum_order_and_abort (m : MieModel) (wls : List ℝ) :
    (∀ rs, m.calculate_spectrum wls = .ok rs →
        rs.map OpticalResult.wavelength = wls) ∧
      ∀ pre wl post e, wls = pre ++ wl :: post →
        (∀ w ∈ pre, ∃ r, ({ m with wavelength := w } : MieModel).calculate = .ok r) →
        ({ m with wavelength := wl } : MieModel).calculate = .error e →
        m.calculate_spectrum wls = .error e := by
  constructor
  · exact fun rs h => m.spectrum_ok_map wls rs h
  · intro pre wl post e hsplit hok he
    rw [hsplit]
    exact m.spectrum_first_error pre wl post e hok he

/-- Witness for C4: the spectrum [300, 400, 500] of a valid model gives
exactly three results carrying wavelengths 300, 400, 500 in order. -/
theorem mie_calculate_spectrum_order_and_abort_witness :
    ([(MieModel.mk 10 300 (RefractiveIndex.mk 1.5 0) 1.33).rayleigh_approximation,
        (MieModel.mk 10 400 (RefractiveIndex.mk 1.5 0) 1.33).rayleigh_approximation,
        (MieModel.mk 10 500 (RefractiveIndex.mk 1.5 0) 1.33).rayleigh_approximation].map
      OpticalResult.wavelength) = [(300 : ℝ), 400, 500] :=
  (mie_calculate_spectrum_order_and_abort
    (MieModel.mk 10 500 (RefractiveIndex.mk 1.5 0) 1.33) [300, 400, 500]).1
    [(MieModel.mk 10 300 (RefractiveIndex.mk 1.5 0) 1.33).rayleigh_approximation,
      (MieModel.mk 10 400 (RefractiveIndex.mk 1.5 0) 1.33).rayleigh_approximation,
      (MieModel.mk 10 500 (RefractiveIndex.mk 1.5 0) 1.33).rayleigh_approximation]
    (by
      have h := (MieModel.mk 10 500 (RefractiveIndex.mk 1.5 0) 1.33).spectrum_all_ok
        (by norm_num) (by norm_num) [300, 400, 500]
        (by intro wl hwl; simp at hwl; rcases hwl with h | h | h <;> rw [h] <;> norm_num)
      simpa using h)

/-- C5: a particle index with zero imaginary part over a positive real
medium gives a polarizability factor with `Im(F) = 0` exactly, hence
`calculate` returns `q_abs = 0` and `q_ext = q_sca` exactly. -/
theorem mie_lossless_particle_no_absorption (m : MieModel)
    (h : m.n_particle.imaginary = 0) (_hm : 0 < m.n_medium) :
    (spec_polarizability_factor
        (spec_relative_index m.n_particle.to_complex m.n_medium)).im = 0 ∧
      ∀ r, m.calculate = .ok r → r.q_abs = 0 ∧ r.q_ext = r.q_sca := by
  have hreal : m.n_particle.to_complex = ((m.n_particle.real : ℝ) : ℂ) := by
    apply Complex.ext <;> simp [RefractiveIndex.to_complex, h]
  have hrel : m.n_particle.to_complex / (m.n_medium : ℂ) =
      ((m.n_particle.real / m.n_medium : ℝ) : ℂ) := by
    rw [hreal, Complex.ofReal_div]
  have hfac : ∀ t : ℝ, (((t : ℂ) * t - 1) / ((t : ℂ) * t + 2)).im = 0 := by
    intro t
    have : ((t : ℂ) * t - 1) / ((t : ℂ) * t + 2) =
        (((t * t - 1) / (t * t + 2) : ℝ) : ℂ) := by
      push_cast
      ring
    rw [this, Complex.ofReal_im]
  constructor
  · simp only [spec_polarizability_factor, spec_relative_index, sq]
    rw [hrel]
    exact hfac _
  · intro r hr
    obtain ⟨-, rfl⟩ := (m.calculate_ok_iff r).mp hr
    have habs : m.rayleigh_approximation.q_abs = 0 := by
      simp only [MieModel.rayleigh_approximation]
      rw [hrel, hfac]
      ring
    refine ⟨habs, ?_⟩
    have hext : m.rayleigh_approximation.q_ext =
        m.rayleigh_approximation.q_sca + m.rayleigh_approximation.q_abs := by
      simp only [MieModel.rayleigh_approximation]
    rw [hext, habs, add_zero]

/-- Witness for C5 at n = 1.5 + 0i, medium 1.33, radius 10,
wavelength 500. -/
theorem mie_lossless_particle_no_absorption_witness :
    (spec_polarizability_factor
        (spec_relative_index
          (MieModel.mk 10 500 (RefractiveIndex.mk 1.5 0) 1.33).n_particle.to_complex
          (MieModel.mk 10 500 (RefractiveIndex.mk 1.5 0) 1.33).n_medium)).im = 0 ∧
      (MieModel.mk 10 500 (RefractiveIndex.mk 1.5 0) 1.33).rayleigh_approximation.q_abs = 0 ∧
      (MieModel.mk 10 500 (RefractiveIndex.mk 1.5 0) 1.33).rayleigh_approximation.q_ext =
        (MieModel.mk 10 500 (RefractiveIndex.mk 1.5 0) 1.33).rayleigh_approximation.q_sca := by
  have h := mie_lossless_particle_no_absorption
    (MieModel.mk 10 500 (RefractiveIndex.mk 1.5 0) 1.33) rfl (by norm_num)
  refine ⟨h.1, h.2 _ ?_⟩
  exact MieModel.calculate_of_valid _ (by norm_num) (by norm_num) (by norm_num)

/-- C6: `warnings` returns exactly one advisory string if and only if
the size parameter exceeds 1 and the empty list otherwise; the string's
text references approximation accuracy; warnings never prevent
`calculate` from succeeding on valid parameters. -/
theorem mie_warnings_iff_large_size_parameter (fmt : ℝ → String) (m : MieModel) :
    (m.warnings fmt = [] ↔ ¬m.size_parameter > 1) ∧
      (m.size_parameter > 1 →
        m.warnings fmt = [mie_size_warning fmt m.size_parameter]) ∧
      List.IsInfix ("Rayleigh approximation may be inaccurate").data
        (mie_size_warning fmt m.size_parameter).data ∧
      (m.validate = .ok () → m.calculate = .ok m.rayleigh_approximation) := by
  refine ⟨?_, ?_, ?_, ?_⟩
  · by_cases hx : m.size_parameter > 1 <;> simp [MieModel.warnings, hx]
  · intro hx
    simp [MieModel.warnings, hx]
  · refine ⟨("Size parameter x=" ++ fmt m.size_parameter ++ " > 1. ").data,
      (". Full Mie theory recommended.").data, ?_⟩
    have hsplit :
        (" > 1. Rayleigh approximation may be inaccurate. Full Mie theory recommended." : String) =
          " > 1. " ++ "Rayleigh approximation may be inaccurate" ++
            ". Full Mie theory recommended." := by rfl
    simp only [mie_size_warning, hsplit, String.data_append, List.append_assoc]
  · intro h
    unfold MieModel.calculate
    rw [h]

/-- Witness for C6: radius 200, wavelength 500 (x ≈ 2.513) warns;
radius 10, wavelength 500 (x ≈ 0.126) does not. -/
theorem mie_warnings_iff_large_size_parameter_witness :
    (MieModel.mk 200 500 (RefractiveIndex.mk 1.5 0) 1).warnings (fun _ => "") =
        [mie_size_warning (fun _ => "")
          (MieModel.mk 200 500 (RefractiveIndex.mk 1.5 0) 1).size_parameter] ∧
      (MieModel.mk 10 500 (RefractiveIndex.mk 1.5 0) 1).warnings (fun _ => "") = [] := by
  constructor
  · exact (mie_warnings_iff_large_size_parameter (fun _ => "")
      (MieModel.mk 200 500 (RefractiveIndex.mk 1.5 0) 1)).2.1
      (by
        simp only [MieModel.size_parameter]
        nlinarith [Real.pi_gt_three])
  · exact (mie_warnings_iff_large_size_parameter (fun _ => "")
      (MieModel.mk 10 500 (RefractiveIndex.mk 1.5 0) 1)).1.mpr
      (by
        simp only [MieModel.size_parameter]
        push_neg
        nlinarith [Real.pi_lt_d2])

/-- C7: `calculate` is a pure function of the four stored parameters:
models with identical radius, wavelength, particle index, and medium
index produce identical results. -/
theorem mie_calculate_deterministic (m1 m2 : MieModel)
    (h1 : m1.radius = m2.radius) (h2 : m1.wavelength = m2.wavelength)
    (h3 : m1.n_particle = m2.n_particle) (h4 : m1.n_medium = m2.n_medium) :
    m1.calculate = m2.calculate := by
  have h : m1 = m2 := by
    cases m1
    cases m2
    simp_all
  rw [h]

/-- Witness for C7: two syntactically different but equal parameter
sets give the same calculation. -/
theorem mie_calculate_deterministic_witness :
    (MieModel.mk (25 + 25) 500 (RefractiveIndex.mk 1.5 0) 1).calculate =
      (MieModel.mk 50 500 (RefractiveIndex.mk 1.5 0) 1).calculate :=
  mie_calculate_deterministic
    (MieModel.mk (25 + 25) 500 (RefractiveIndex.mk 1.5 0) 1)
    (MieModel.mk 50 500 (RefractiveIndex.mk 1.5 0) 1)
    (by norm_num) rfl rfl rfl

/-- C8: the unit conversions agree with the fixed constants table:
`to_energy_ev` is `HC_EV_NM/λ`, `to_frequency_hz` is `C_NM_S/λ`, and
`to_celsius` is `T − 273.15`. -/
theorem unit_conversions_match_constants_table (lam T : ℝ) :
    (units.Wavelength.mk lam).to_energy_ev =
        units.ElectronVolt.mk (constants.conversions.HC_EV_NM / lam) ∧
      (units.Wavelength.mk lam).to_frequency_hz = constants.C_NM_S / lam ∧
      (units.Kelvin.mk T).to_celsius = T - 273.15 :=
  ⟨rfl, rfl, rfl⟩

/-- C3: `validate` yields an `InvalidParameter` error exactly when
radius, wavelength, or medium index is non-positive, returns `Ok` for
every other parameter combination, and `calculate` propagates the same
validation failure wrapped in the `CalculationError` channel. -/
theorem mie_validate_rejects_nonpositive (m : MieModel) :
    ((m.radius ≤ 0 ∨ m.wavelength ≤ 0 ∨ m.n_medium ≤ 0) →
        isInvalidParameterError m.validate) ∧
      (¬(m.radius ≤ 0 ∨ m.wavelength ≤ 0 ∨ m.n_medium ≤ 0) →
        m.validate = .ok ()) ∧
      ∀ e, m.validate = .error e → m.calculate = .error (.Validation e) := by
  refine ⟨?_, ?_, ?_⟩
  · intro h
    unfold MieModel.validate
    by_cases h1 : m.radius ≤ 0
    · simp [h1, isInvalidParameterError]
    · by_cases h2 : m.wavelength ≤ 0
      · simp [h1, h2, isInvalidParameterError]
      · have h3 : m.n_medium ≤ 0 := by tauto
        simp [h1, h2, h3, isInvalidParameterError]
  · intro h
    exact (m.validate_ok_iff).mpr h
  · intro e he
    unfold MieModel.calculate
    rw [he]

/-- Witness for C3: radius −1 is rejected by `validate` and by
`calculate`, and an all-positive model passes. -/
theorem mie_validate_rejects_nonpositive_witness :
    isInvalidParameterError (MieModel.mk (-1) 500 (RefractiveIndex.mk 1.5 0) 1).validate ∧
      (MieModel.mk 50 500 (RefractiveIndex.mk 1.5 0) 1).validate = .ok () ∧
      (MieModel.mk (-1) 500 (RefractiveIndex.mk 1.5 0) 1).calculate =
        .error (.Validation (.InvalidParameter "Radius must be positive")) := by
  refine ⟨?_, ?_, ?_⟩
  · exact (mie_validate_rejects_nonpositive
      (MieModel.mk (-1) 500 (RefractiveIndex.mk 1.5 0) 1)).1 (Or.inl (by norm_num))
  · exact (mie_validate_rejects_nonpositive
      (MieModel.mk 50 500 (RefractiveIndex.mk 1.5 0) 1)).2.1 (by push_neg; norm_num)
  · exact (mie_validate_rejects_nonpositive
      (MieModel.mk (-1) 500 (RefractiveIndex.mk 1.5 0) 1)).2.2
      (.InvalidParameter "Radius must be positive")
      (by unfold MieModel.validate; norm_num)

/-- C9 counterexample: a model whose radius is NaN but whose wavelength
is the non-positive real −1 is rejected by `validate`, so "if any of
radius, wavelength, or medium index is NaN, validate() returns Ok(())"
is false as stated. -/
theorem mieF_nan_validate_counterexample :
    (MieModelF.mk F64.nan (F64.val (-1))
        (RefractiveIndexF.mk (F64.val 1.5) (F64.val 0)) (F64.val 1)).radius.isNaN ∧
      (MieModelF.mk F64.nan (F64.val (-1))
        (RefractiveIndexF.mk (F64.val 1.5) (F64.val 0)) (F64.val 1)).validate =
        .error (.InvalidParameter "Wavelength must be positive") := by
  constructor
  · exact trivial
  · unfold MieModelF.validate
    rw [if_neg (by simp [F64.fle]), if_pos (by simp only [F64.fle]; norm_num)]

/-- C9 (amended): if each of radius, wavelength, and medium index is
NaN or a positive real — so that every `<= 0.0` validation comparison
is false — and at least one of them is NaN, then `validate` returns
`Ok(())` and `calculate` returns `Ok` of a result whose efficiencies
and cross-sections are all NaN: NaN inputs are not rejected as invalid
parameters. -/
theorem mieF_nan_inputs_not_rejected (m : MieModelF)
    (hr : m.radius.nanOrPos) (hw : m.wavelength.nanOrPos)
    (hm : m.n_medium.nanOrPos)
    (hnan : m.radius.isNaN ∨ m.wavelength.isNaN ∨ m.n_medium.isNaN) :
    m.validate = .ok () ∧
      m.calculate = .ok m.rayleigh_approximation ∧
      m.rayleigh_approximation.q_sca.isNaN ∧
      m.rayleigh_approximation.q_abs.isNaN ∧
      m.rayleigh_approximation.q_ext.isNaN ∧
      m.rayleigh_approximation.c_sca.isNaN ∧
      m.rayleigh_approximation.c_abs.isNaN ∧
      m.rayleigh_approximation.c_ext.isNaN := by
  have hv : m.validate = .ok () := by
    unfold MieModelF.validate
    rw [if_neg (F64.not_fle_zero hr), if_neg (F64.not_fle_zero hw),
      if_neg (F64.not_fle_zero hm)]
  have hc : m.calculate = .ok m.rayleigh_approximation := by
    unfold MieModelF.calculate
    rw [hv]
  refine ⟨hv, hc, ?_⟩
  obtain ⟨r, w, p, nm⟩ := m
  simp only [MieModelF.rayleigh_approximation, MieModelF.size_parameter,
    RefractiveIndexF.to_complex, Complex64.divScalar, Complex64.mul,
    Complex64.sub, Complex64.add, Complex64.div, Complex64.norm_sqr,
    Complex64.new]
  rcases hnan with h | h | h
  · cases r with
    | val x => exact absurd h (by simp [F64.isNaN])
    | nan => simp
  · cases w with
    | val x => exact absurd h (by simp [F64.isNaN])
    | nan => simp
  · cases nm with
    | val x => exact absurd h (by simp [F64.isNaN])
    | nan => simp

/-- Witness for the amended C9: NaN radius with positive wavelength and
medium passes validation and yields all-NaN efficiencies and
cross-sections. -/
theorem mieF_nan_inputs_not_rejected_witness :
    (MieModelF.mk F64.nan (F64.val 500)
        (RefractiveIndexF.mk (F64.val 1.5) (F64.val 0)) (F64.val 1.33)).validate = .ok () ∧
      (MieModelF.mk F64.nan (F64.val 500)
        (RefractiveIndexF.mk (F64.val 1.5) (F64.val 0)) (F64.val 1.33)).calculate =
        .ok (MieModelF.mk F64.nan (F64.val 500)
          (RefractiveIndexF.mk (F64.val 1.5) (F64.val 0)) (F64.val 1.33)).rayleigh_approximation ∧
      (MieModelF.mk F64.nan (F64.val 500)
        (RefractiveIndexF.mk (F64.val 1.5) (F64.val 0)) (F64.val 1.33)).rayleigh_approximation.q_sca.isNaN ∧
      (MieModelF.mk F64.nan (F64.val 500)
        (RefractiveIndexF.mk (F64.val 1.5) (F64.val 0)) (F64.val 1.33)).rayleigh_approximation.q_abs.isNaN ∧
      (MieModelF.mk F64.nan (F64.val 500)
        (RefractiveIndexF.mk (F64.val 1.5) (F64.val 0)) (F64.val 1.33)).rayleigh_approximation.q_ext.isNaN ∧
      (MieModelF.mk F64.nan (F64.val 500)
        (RefractiveIndexF.mk (F64.val 1.5) (F64.val 0)) (F64.val 1.33)).rayleigh_approximation.c_sca.isNaN ∧
      (MieModelF.mk F64.nan (F64.val 500)
        (RefractiveIndexF.mk (F64.val 1.5) (F64.val 0)) (F64.val 1.33)).rayleigh_approximation.c_abs.isNaN ∧
      (MieModelF.mk F64.nan (F64.val 500)
        (RefractiveIndexF.mk (F64.val 1.5) (F64.val 0)) (F64.val 1.33)).rayleigh_approximation.c_ext.isNaN :=
  mieF_nan_inputs_not_rejected
    (MieModelF.mk F64.nan (F64.val 500)
      (RefractiveIndexF.mk (F64.val 1.5) (F64.val 0)) (F64.val 1.33))
    trivial (by norm_num [F64.nanOrPos]) (by norm_num [F64.nanOrPos])
    (Or.inl trivial)

/-- C10: the result of `calculate_spectrum` does not depend on the
model's own stored wavelength: models agreeing on radius, particle
index, and medium index give identical spectra; and on a positive
model and all-positive wavelength list the spectrum succeeds
regardless of the stored wavelength. -/
theorem mie_spectrum_independent_of_model_wavelength (m1 m2 : MieModel)
    (wls : List ℝ) (hr : m1.radius = m2.radius)
    (hp : m1.n_particle = m2.n_particle) (hm : m1.n_medium = m2.n_medium) :
    m1.calculate_spectrum wls = m2.calculate_spectrum wls ∧
      (0 < m1.radius → 0 < m1.n_medium → (∀ wl ∈ wls, 0 < wl) →
        m1.calculate_spectrum wls =
          .ok (wls.map fun wl =>
            ({ m1 with wavelength := wl } : MieModel).rayleigh_approximation)) := by
  constructor
  · induction wls with
    | nil => simp [MieModel.calculate_spectrum]
    | cons wl rest ih =>
      have hpoint : ({ m1 with wavelength := wl } : MieModel) =
          { m2 with wavelength := wl } := by
        cases m1
        cases m2
        simp_all
      simp only [MieModel.calculate_spectrum, hpoint, ih]
  · intro h1 h2 h3
    exact m1.spectrum_all_ok h1 h2 wls h3

/-- Witness for C10: a model with non-positive stored wavelength −5
computes the same one-point spectrum at 500 nm as one storing 500, and
that spectrum succeeds. -/
theorem mie_spectrum_independent_of_model_wavelength_witness :
    (MieModel.mk 10 (-5) (RefractiveIndex.mk 1.5 0) 1.33).calculate_spectrum [500] =
        (MieModel.mk 10 500 (RefractiveIndex.mk 1.5 0) 1.33).calculate_spectrum [500] ∧
      (MieModel.mk 10 (-5) (RefractiveIndex.mk 1.5 0) 1.33).calculate_spectrum [500] =
        .ok [(MieModel.mk 10 500 (RefractiveIndex.mk 1.5 0) 1.33).rayleigh_approximation] := by
  have h := mie_spectrum_independent_of_model_wavelength
    (MieModel.mk 10 (-5) (RefractiveIndex.mk 1.5 0) 1.33)
    (MieModel.mk 10 500 (RefractiveIndex.mk 1.5 0) 1.33)
    [500] rfl rfl rfl
  refine ⟨h.1, ?_⟩
  have h2 := h.2 (by norm_num) (by norm_num)
    (by intro wl hwl; rw [List.mem_singleton] at hwl; rw [hwl]; norm_num)
  simpa using h2

end Nanocalc
